import Mathlib

/-!
A shallow embedding of the request-routing and local-signing engine of the
walletless E2E provider (an EIP-1193 virtual wallet for end-to-end tests).

The embedded source files are:
* `src/constants.ts` — the static method-classification tables and the
  Anvil test-account table;
* `src/provider.ts` / `src/connectors/wagmi.ts` (the variant of
  `createE2EProvider` carrying the `rejectSignature` / `rejectTransaction`
  flags; the two variants agree on everything else embedded here) — the
  request router, the wallet/write handlers, the JSON-RPC response
  unwrapping, the event bus and `resolveAccount`.

Effectful TS code is embedded as explicit state passing; a `throw` becomes
an `Except.error`; calls into the external signing library (viem's wallet
client) are represented as an explicit `BackendCall` value describing which
backend operation would be invoked with which extracted arguments.
-/

namespace Walletless

/-- `READ_METHODS` from `src/constants.ts`: RPC methods that read data from
the blockchain, redirected to the RPC URL. -/
def READ_METHODS : List String := [
  "eth_blockNumber",
  "eth_getBlockByHash",
  "eth_getBlockByNumber",
  "eth_getBlockTransactionCountByHash",
  "eth_getBlockTransactionCountByNumber",
  "eth_getUncleByBlockHashAndIndex",
  "eth_getUncleByBlockNumberAndIndex",
  "eth_getUncleCountByBlockHash",
  "eth_getUncleCountByBlockNumber",
  "eth_getTransactionByHash",
  "eth_getTransactionByBlockHashAndIndex",
  "eth_getTransactionByBlockNumberAndIndex",
  "eth_getTransactionReceipt",
  "eth_getTransactionCount",
  "eth_getBalance",
  "eth_getCode",
  "eth_getStorageAt",
  "eth_call",
  "eth_newFilter",
  "eth_newBlockFilter",
  "eth_newPendingTransactionFilter",
  "eth_uninstallFilter",
  "eth_getFilterChanges",
  "eth_getFilterLogs",
  "eth_getLogs",
  "eth_gasPrice",
  "eth_estimateGas",
  "eth_feeHistory",
  "eth_maxPriorityFeePerGas",
  "eth_chainId",
  "net_version",
  "net_listening",
  "net_peerCount",
  "web3_clientVersion",
  "eth_syncing",
  "eth_protocolVersion"]

/-- `WALLET_METHODS` from `src/constants.ts`: RPC methods that handle wallet
state (accounts, chain, permissions), handled locally by the provider. -/
def WALLET_METHODS : List String := [
  "eth_accounts",
  "eth_chainId",
  "net_version",
  "eth_requestAccounts",
  "wallet_switchEthereumChain",
  "wallet_addEthereumChain",
  "wallet_requestPermissions",
  "wallet_getPermissions",
  "wallet_revokePermissions",
  "wallet_watchAsset",
  "wallet_scanQRCode",
  "wallet_registerOnboarding"]

/-- `WRITE_METHODS` from `src/constants.ts`: RPC methods that require signing
or write operations, handled locally with the wallet client. -/
def WRITE_METHODS : List String := [
  "eth_sendTransaction",
  "eth_sendRawTransaction",
  "eth_signTransaction",
  "eth_sign",
  "personal_sign",
  "eth_signTypedData",
  "eth_signTypedData_v3",
  "eth_signTypedData_v4"]

/-- `isReadMethod` from `src/constants.ts`. -/
def isReadMethod (method : String) : Bool := READ_METHODS.contains method

/-- `isWalletMethod` from `src/constants.ts`. -/
def isWalletMethod (method : String) : Bool := WALLET_METHODS.contains method

/-- `isWriteMethod` from `src/constants.ts`. -/
def isWriteMethod (method : String) : Bool := WRITE_METHODS.contains method

/-- The handler a `request` call dispatches to. `read` and `fallback` are
kept distinct for fidelity with the source's four branches, although both
end up calling `sendJsonRpc` (the JSON-RPC Forwarder): `handleReadMethod`
is a direct pass-through to `sendJsonRpc`. -/
inductive Route where
  | wallet
  | write
  | read
  | fallback
deriving DecidableEq, Repr

/-- The dispatch performed by `request` in `createE2EProvider`
(`src/provider.ts`): wallet methods first, then write methods, then read
methods, and any unknown method falls through to the RPC forwarder. -/
def routeOf (method : String) : Route :=
  if isWalletMethod method then .wallet
  else if isWriteMethod method then .write
  else if isReadMethod method then .read
  else .fallback

/-- Whether a route ends at the JSON-RPC Forwarder (`sendJsonRpc`):
`handleReadMethod` forwards directly, and the unknown-method fallback calls
`sendJsonRpc` itself. -/
def forwardsToRpc : Route → Bool
  | .read => true
  | .fallback => true
  | _ => false

/-- A JS `Error` as thrown by the provider: a message plus an optional
numeric `code` property.  `ProviderRpcError` instances always carry a code;
a plain `Error` (e.g. `Unsupported write method: ...`) carries none. -/
structure ProviderError where
  code : Option Int
  message : String
deriving DecidableEq, Repr

/-- `ProviderErrorCode.UserRejectedRequest` (EIP-1193 user rejection).  The
enum is declared in the repository's `types.ts`; its numeric value is pinned
by the repository's own tests
(`test/provider.spec.ts` asserts it equals 4001). -/
def UserRejectedRequest : Int := 4001

/-- The call into the external signing/transport library (viem wallet
client) or the RPC forwarder that `handleWriteMethod` performs when it does
not fail.  The library itself is an external black box; the constructor
records which operation is invoked and the parameter it extracts. -/
inductive BackendCall where
  | sendTransaction
  | signMessage (raw : Option String)
  | signTypedData (payload : Option String)
  | rpcForward (method : String) (params : List String)
deriving DecidableEq, Repr

/-- The `signingMethods` array inside `handleWriteMethod`
(`src/connectors/wagmi.ts`, flagged variant). -/
def signingMethods : List String :=
  ["personal_sign", "eth_sign", "eth_signTypedData", "eth_signTypedData_v3",
   "eth_signTypedData_v4"]

/-- `handleWriteMethod` from the flagged `createE2EProvider` variant
(`src/connectors/wagmi.ts`): first the `rejectTransaction` check for
`eth_sendTransaction`, then the `rejectSignature` check for the five
signing methods, then the per-method dispatch.  RPC `params` are modeled as
a list of opaque strings; the transaction-field assembly and the signature
bytes produced by the external wallet client are outside the model, so a
successful dispatch returns the `BackendCall` it performs. -/
def handleWriteMethod (rejectTransaction rejectSignature : Bool)
    (method : String) (params : List String) : Except ProviderError BackendCall :=
  if method == "eth_sendTransaction" && rejectTransaction then
    .error ⟨some UserRejectedRequest, "User rejected the transaction request."⟩
  else if signingMethods.contains method && rejectSignature then
    .error ⟨some UserRejectedRequest, "User rejected the signature request."⟩
  else if method == "eth_sendTransaction" then
    .ok .sendTransaction
  else if method == "personal_sign" then
    .ok (.signMessage (params.get? 0))
  else if method == "eth_sign" then
    .ok (.signMessage (params.get? 1))
  else if method == "eth_signTypedData" || method == "eth_signTypedData_v3"
      || method == "eth_signTypedData_v4" then
    .ok (.signTypedData (params.get? 1))
  else if method == "eth_sendRawTransaction" then
    .ok (.rpcForward method params)
  else
    .error ⟨none, "Unsupported write method: " ++ method⟩

/-- `DEFAULT_ANVIL_RPC_URL` from `src/constants.ts`. -/
def DEFAULT_ANVIL_RPC_URL : String := "http://127.0.0.1:8545"

/-- The wallet client created by `createWalletClient({account, chain,
transport: http(url)})`: for the purposes of this model it is determined by
the account, the chain id and the transport URL it was built from. -/
structure WalletClientModel where
  account : String
  chain : Nat
  url : String
deriving DecidableEq, Repr

/-- `ProviderState` from `src/types.ts` (addresses as opaque strings). -/
structure ProviderState where
  accounts : List String
  chainId : Nat
  isConnected : Bool
  supportedChainIds : List Nat
deriving DecidableEq, Repr

/-- The mutable `internal` record of `createE2EProvider`.  A configured
chain (`CompatibleChain`) is represented by its id, which is the only field
the embedded handlers consult (`c.id === newChainId`). -/
structure InternalState where
  account : String
  walletClient : WalletClientModel
  chains : List Nat
  currentChain : Nat
  rpcUrl : String
  rpcUrls : List (Nat × String)
deriving DecidableEq, Repr

/-- `getRpcUrl` from `createE2EProvider`: per-chain RPC URL with fallback to
the default Anvil URL. -/
def getRpcUrl (rpcUrls : List (Nat × String)) (chainId : Nat) : String :=
  match rpcUrls.lookup chainId with
  | some url => url
  | none => DEFAULT_ANVIL_RPC_URL

/-- An event emitted through the provider's event bus, with its payload. -/
inductive Event where
  | connect (chainIdHex : String)
  | chainChanged (chainIdHex : String)
  | accountsChanged (accounts : List String)
  | disconnected (code : Int) (message : String)
deriving DecidableEq, Repr

/-- The hex rendering used everywhere in the source:
`"0x" + chainId.toString(16)` (lowercase hex digits, as in JS). -/
def hexChainId (chainId : Nat) : String :=
  "0x" ++ (Nat.toDigits 16 chainId).asString

/-- The `eth_requestAccounts` case of `handleWalletMethod`: if not yet
connected, set `isConnected` and emit `connect` with the current chain id in
hex; always return `state.accounts`.  Returns (new state, emitted events,
result). -/
def handleRequestAccounts (s : ProviderState) :
    ProviderState × List Event × List String :=
  if s.isConnected then (s, [], s.accounts)
  else ({ s with isConnected := true },
        [.connect (hexChainId s.chainId)], s.accounts)

/-- `n` successive `request({method: "eth_requestAccounts"})` calls:
final state, all events emitted (in order), and the result of each call. -/
def iterateRequestAccounts (s : ProviderState) :
    Nat → ProviderState × List Event × List (List String)
  | 0 => (s, [], [])
  | n + 1 =>
      let first := handleRequestAccounts s
      let rest := iterateRequestAccounts first.1 n
      (rest.1, first.2.1 ++ rest.2.1, first.2.2 :: rest.2.2)

/-- JS `Array.prototype.join(", ")`: the elements separated by `", "`, the
empty string on an empty array. -/
def joinComma : List String → String
  | [] => ""
  | [x] => x
  | x :: xs => x ++ ", " ++ joinComma xs

/-- The message of the unsupported-chain error thrown by the
`wallet_switchEthereumChain` case: ``Chain <id> is not supported. Supported
chains: <id1>, <id2>, ...`` (`supportedChainIds.join(", ")`). -/
def unsupportedChainMessage (newChainId : Nat) (supported : List Nat) : String :=
  "Chain " ++ toString newChainId ++ " is not supported. Supported chains: " ++
    joinComma (supported.map toString)

/-- The `wallet_switchEthereumChain` case of `handleWalletMethod`, with the
target id already parsed from its hex parameter (`parseInt(chainId, 16)`).
The source throws before any mutation when the id is unsupported; in the
state-passing embedding the error branch returns the incoming state
untouched.  Otherwise it looks the chain up in `internal.chains`, rebuilds
the routing entry and wallet client when found, sets `state.chainId`, and
emits `chainChanged` with the id in hex. -/
def handleSwitchChain (s : ProviderState) (internal : InternalState)
    (newChainId : Nat) :
    ProviderState × InternalState × List Event × Except ProviderError Unit :=
  if newChainId ∉ s.supportedChainIds then
    (s, internal, [],
     .error ⟨some 4902, unsupportedChainMessage newChainId s.supportedChainIds⟩)
  else
    let internalNext :=
      match internal.chains.find? (fun c => c == newChainId) with
      | some newChain =>
          let newRpcUrl := getRpcUrl internal.rpcUrls newChainId
          { internal with
              currentChain := newChain
              rpcUrl := newRpcUrl
              walletClient := ⟨internal.account, newChain, newRpcUrl⟩ }
      | none => internal
    ({ s with chainId := newChainId }, internalNext,
     [.chainChanged (hexChainId newChainId)], .ok ())

/-- A listener registered on the event bus.  JS compares listeners by object
identity; a listener is modeled by an identity tag plus whether invoking it
throws. -/
structure ListenerModel where
  id : Nat
  throws : Bool
deriving DecidableEq, Repr

/-- `on(event, listener)` for one event's listener set: `Set.prototype.add`
— appends the listener unless it is already present. -/
def addListener (listenerSet : List ListenerModel) (l : ListenerModel) :
    List ListenerModel :=
  if l ∈ listenerSet then listenerSet else listenerSet ++ [l]

/-- `removeListener(event, listener)` for one event's listener set:
`Set.prototype.delete` — removes the listener when present, does nothing
otherwise (never an error). -/
def removeListener (listenerSet : List ListenerModel) (l : ListenerModel) :
    List ListenerModel :=
  listenerSet.erase l

/-- `emit(event, ...args)`: `listeners[event].forEach(l => l(...args))`.
`Set.prototype.forEach` invokes the callback on each element in insertion
order and does not catch exceptions, so a throwing listener aborts the
remaining iteration and the exception escapes `emit`.  Returns the ids of
the listeners actually invoked and whether an exception escaped. -/
def emitRun : List ListenerModel → List Nat × Bool
  | [] => ([], false)
  | l :: rest =>
      if l.throws then ([l.id], true)
      else
        let r := emitRun rest
        (l.id :: r.1, r.2)

/-- The `error` member of a JSON-RPC 2.0 response. -/
structure JsonRpcErrorObj where
  code : Int
  message : String
deriving DecidableEq, Repr

/-- A parsed JSON-RPC 2.0 response body (the `jsonrpc`/`id` envelope fields
play no role in the unwrapping). -/
structure JsonRpcResponse (V : Type) where
  result : Option V
  error : Option JsonRpcErrorObj
deriving DecidableEq, Repr

/-- The response-unwrapping tail of `sendJsonRpc` (the HTTP POST itself is
external I/O): if `data.error` is present, throw an error carrying exactly
that code and message; otherwise return `data.result` verbatim. -/
def sendJsonRpcUnwrap {V : Type} (data : JsonRpcResponse V) :
    Except ProviderError (Option V) :=
  match data.error with
  | some e => .error ⟨some e.code, e.message⟩
  | none => .ok data.result

/-- An entry of the Anvil test-account table (`AnvilAccount` in
`src/constants.ts`). -/
structure AnvilAccount where
  address : String
  privateKey : String
deriving DecidableEq, Repr

/-- `ANVIL_ACCOUNTS` from `src/constants.ts`: the ten default Anvil test
accounts derived from the default Anvil mnemonic. -/
def ANVIL_ACCOUNTS : List AnvilAccount := [
  ⟨"0xf39Fd6e51aad88F6F4ce6aB8827279cffFb92266",
   "0xac0974bec39a17e36ba4a6b4d238ff944bacb478cbed5efcae784d7bf4f2ff80"⟩,
  ⟨"0x70997970C51812dc3A010C7d01b50e0d17dc79C8",
   "0x59c6995e998f97a5a0044966f0945389dc9e86dae88c7a8412f4603b6b78690d"⟩,
  ⟨"0x3C44CdDdB6a900fa2b585dd299e03d12FA4293BC",
   "0x5de4111afa1a4b94908f83103eb1f1706367c2e68ca870fc3fb9a804cdab365a"⟩,
  ⟨"0x90F79bf6EB2c4f870365E785982E1f101E93b906",
   "0x7c852118294e51e653712a81e05800f419141751be58f605c371e15141b007a6"⟩,
  ⟨"0x15d34AAf54267DB7D7c367839AAf71A00a2C6A65",
   "0x47e179ec197488593b187f80a00eb0da91f1b9d0b13f8733639f19c30a34926a"⟩,
  ⟨"0x9965507D1a55bcC2695C58ba16FB37d819B0A4dc",
   "0x8b3a350cf5c34c9194ca85829a2df0ec3153be0318b5e2d3348e872092edffba"⟩,
  ⟨"0x976EA74026E726554dB657fA54763abd0C3a0aa9",
   "0x92db14e403b83dfe3df233f83dfa3a0d7096f21ca9b0d6d6b8d88b2b4ec1564e"⟩,
  ⟨"0x14dC79964da2C08b23698B3D3cc7Ca32193d9955",
   "0x4bbbf85ce3377467afe5d46f804f221813b2bb87f24d81f60f1fcdbf7cbf4356"⟩,
  ⟨"0x23618e81E3f5cdF7f54C3d65f7FBc0aBf5B21E8f",
   "0xdbda1821b80551c9d65939329250298aa3472ba22feea921c0cf5d620ea67b97"⟩,
  ⟨"0xa0Ee7A142d267C1f36714E4a8F75612F20a79720",
   "0x2a871d0798f97d79848a013d4936a73bf4cc922c825d33c1cf7073dff6d409c6"⟩]

/-- Input to `setSigningAccount` / `resolveAccount`.  A JS number is modeled
as a rational (`Number.isInteger(q)` becomes `q.den = 1`); an already-built
viem `Account` object is represented by its address. -/
inductive SigningAccountInput where
  | num (value : ℚ)
  | str (s : String)
  | obj (address : String)
deriving DecidableEq, Repr

/-- The outcome of `resolveAccount`: either the input `Account` object used
directly, or an account built by `privateKeyToAccount` from the given
private key (the key derivation itself is external cryptography). -/
inductive ResolvedAccount where
  | fromObj (address : String)
  | fromPrivateKey (privateKey : String)
deriving DecidableEq, Repr

/-- The three error shapes `resolveAccount` can throw. -/
inductive ResolveError where
  | invalidIndex (value : ℚ)
  | unknownAddress (address : String)
  | invalidInput
deriving DecidableEq, Repr

/-- Rendering of the interpolated JS number in the invalid-index message; an
integral value prints without a fractional part.  (Exact JS float formatting
of non-integers is not modeled further; only the fixed message prefix is
relied on.) -/
def ratRepr (q : ℚ) : String :=
  if q.den = 1 then toString q.num else toString q

/-- The messages of the errors thrown by `resolveAccount`
(`src/connectors/wagmi.ts`, flagged variant, identical in
`src/provider.ts`). -/
def renderResolveError : ResolveError → String
  | .invalidIndex q =>
      "Invalid Anvil account index: " ++ ratRepr q ++ ". Must be 0-9."
  | .unknownAddress s =>
      "Address " ++ s ++ " is not a default Anvil account."
  | .invalidInput =>
      "Invalid input: expected index (0-9), address (42 chars), private key (66 chars), or Account object."

/-- JS `String.prototype.toLowerCase()`, modeled character-wise on the
string's character list (identical to the JS behavior on the ASCII hex
addresses this code compares). -/
def jsToLowerCase (s : String) : String :=
  String.mk (s.data.map Char.toLower)

/-- `resolveAccount`: an `Account` object is used directly; a number must be
an integer in 0..9 and indexes `ANVIL_ACCOUNTS` (the source's unchecked
`ANVIL_ACCOUNTS[input]!` is rendered as `get?` with a default never reached
for validated indices); a string is disambiguated purely by length — 66
characters is a raw private key, 42 characters is an address looked up
case-insensitively in the table, anything else is invalid input. -/
def resolveAccount : SigningAccountInput → Except ResolveError ResolvedAccount
  | .obj a => .ok (.fromObj a)
  | .num q =>
      if q < 0 ∨ 9 < q ∨ q.den ≠ 1 then .error (.invalidIndex q)
      else .ok (.fromPrivateKey
        (((ANVIL_ACCOUNTS.get? q.num.toNat).getD ⟨"", ""⟩).privateKey))
  | .str s =>
      if s.length == 66 then .ok (.fromPrivateKey s)
      else if s.length == 42 then
        match ANVIL_ACCOUNTS.find?
            (fun a => jsToLowerCase a.address == jsToLowerCase s) with
        | some a => .ok (.fromPrivateKey a.privateKey)
        | none => .error (.unknownAddress s)
      else .error .invalidInput

/-!  Theorems settling the claims. -/

/-- C3 counterexample: the claim that `READ_METHODS`, `WRITE_METHODS` and
`WALLET_METHODS` are pairwise disjoint fails at the concrete method name
`"eth_chainId"`, which is a member of both `READ_METHODS` and
`WALLET_METHODS`. -/
theorem method_tables_not_pairwise_disjoint :
    "eth_chainId" ∈ READ_METHODS ∧ "eth_chainId" ∈ WALLET_METHODS := by
  decide

/-- C3 (amended): `WRITE_METHODS` is disjoint from both `READ_METHODS` and
`WALLET_METHODS`, while `READ_METHODS` and `WALLET_METHODS` overlap in
exactly the two method names `eth_chainId` and `net_version`. -/
theorem method_tables_disjointness :
    (WRITE_METHODS.all
      (fun m => !(READ_METHODS.contains m) && !(WALLET_METHODS.contains m))) = true
    ∧ READ_METHODS.filter (fun m => WALLET_METHODS.contains m) =
        ["eth_chainId", "net_version"] := by
  constructor
  · decide
  · decide

/-- C4: `request` classifies with the precedence WalletState, then Write,
then Read: a method routes to the wallet handler exactly when it is in the
WalletState set (even when it is also in the Read set, as `eth_chainId`
is); otherwise to the write handler exactly when it is in the Write set;
and in every remaining case — Read-set member or unrecognized — it ends at
the JSON-RPC Forwarder. -/
theorem request_dispatch_precedence :
    (∀ m : String,
      (routeOf m = Route.wallet ↔ isWalletMethod m = true)
      ∧ (routeOf m = Route.write ↔
          (isWalletMethod m = false ∧ isWriteMethod m = true))
      ∧ (forwardsToRpc (routeOf m) = true ↔
          (isWalletMethod m = false ∧ isWriteMethod m = false)))
    ∧ routeOf "eth_chainId" = Route.wallet
    ∧ isReadMethod "eth_chainId" = true
    ∧ routeOf "made_upMethod" = Route.fallback := by
  refine ⟨?_, by decide, by decide, by decide⟩
  intro m
  cases hWal : isWalletMethod m <;> cases hWr : isWriteMethod m <;>
    cases hRd : isReadMethod m <;>
      simp [routeOf, hWal, hWr, hRd, forwardsToRpc]

/-- C9: the Forwarder's response unwrapping: a response carrying an `error`
field rejects with exactly that field's code and message; a response
without one returns its `result` field verbatim; in particular the
response `{error: {code: -32600, message: "Invalid Request"}}` rejects
with code `-32600` and that exact message. -/
theorem rpc_response_unwrapping :
    (∀ (V : Type) (resp : JsonRpcResponse V) (e : JsonRpcErrorObj),
        resp.error = some e →
          sendJsonRpcUnwrap resp = .error ⟨some e.code, e.message⟩)
    ∧ (∀ (V : Type) (resp : JsonRpcResponse V),
        resp.error = none → sendJsonRpcUnwrap resp = .ok resp.result)
    ∧ sendJsonRpcUnwrap (V := String) ⟨none, some ⟨-32600, "Invalid Request"⟩⟩ =
        .error ⟨some (-32600), "Invalid Request"⟩ := by
  refine ⟨?_, ?_, rfl⟩
  · intro V resp e h
    simp [sendJsonRpcUnwrap, h]
  · intro V resp h
    simp [sendJsonRpcUnwrap, h]

/-- C9 witness: the unwrapping theorem applied to a concrete balance-query
response carrying `{code: -32600, message: "Invalid Request"}`. -/
theorem rpc_response_unwrapping_witness :
    sendJsonRpcUnwrap (V := String) ⟨some "0x100", some ⟨-32600, "Invalid Request"⟩⟩ =
      .error ⟨some (-32600), "Invalid Request"⟩ :=
  rpc_response_unwrapping.1 String
    ⟨some "0x100", some ⟨-32600, "Invalid Request"⟩⟩ ⟨-32600, "Invalid Request"⟩ rfl

/-- C10: `eth_sendRawTransaction` is never short-circuited by either
rejection flag: for every flag state and parameter list the write handler
forwards it verbatim to the JSON-RPC Forwarder rather than raising the
4001 user-rejection error, and `request` classifies it as a Write method. -/
theorem sendRawTransaction_not_gated (rejectTransaction rejectSignature : Bool)
    (params : List String) :
    handleWriteMethod rejectTransaction rejectSignature
        "eth_sendRawTransaction" params =
      .ok (.rpcForward "eth_sendRawTransaction" params)
    ∧ routeOf "eth_sendRawTransaction" = Route.write := by
  exact ⟨rfl, rfl⟩

/-- C1: with `rejectSignature = true` every signing variant fails with the
4001 user-rejection error (no `BackendCall` is produced, so the signing
backend is never invoked); with `rejectTransaction = true`,
`eth_sendTransaction` fails the same way while the write handler's result
on every signing variant is unchanged by that flag. -/
theorem write_rejection_flags (rejectTransaction rejectSignature : Bool)
    (params : List String) :
    (∀ m ∈ signingMethods,
        handleWriteMethod rejectTransaction true m params =
          .error ⟨some UserRejectedRequest, "User rejected the signature request."⟩)
    ∧ handleWriteMethod true rejectSignature "eth_sendTransaction" params =
        .error ⟨some UserRejectedRequest, "User rejected the transaction request."⟩
    ∧ (∀ m ∈ signingMethods,
        handleWriteMethod true rejectSignature m params =
          handleWriteMethod false rejectSignature m params) := by
  refine ⟨?_, rfl, ?_⟩
  · intro m hm
    simp only [signingMethods, List.mem_cons, List.not_mem_nil, or_false] at hm
    rcases hm with rfl | rfl | rfl | rfl | rfl <;> rfl
  · intro m hm
    simp only [signingMethods, List.mem_cons, List.not_mem_nil, or_false] at hm
    rcases hm with rfl | rfl | rfl | rfl | rfl <;> rfl

/-- C1 witness: the theorem applied at `personal_sign` with
`rejectSignature` set, at `eth_sendTransaction` with `rejectTransaction`
set, and at `personal_sign` under `rejectTransaction` (unaffected). -/
theorem write_rejection_flags_witness :
    handleWriteMethod false true "personal_sign" ["0x48656c6c6f"] =
      .error ⟨some UserRejectedRequest, "User rejected the signature request."⟩
    ∧ handleWriteMethod true false "eth_sendTransaction" [] =
      .error ⟨some UserRejectedRequest, "User rejected the transaction request."⟩
    ∧ handleWriteMethod true false "personal_sign" ["0x01"] =
        handleWriteMethod false false "personal_sign" ["0x01"] :=
  ⟨(write_rejection_flags false true ["0x48656c6c6f"]).1 "personal_sign" (by decide),
   (write_rejection_flags true false ([] : List String)).2.1,
   (write_rejection_flags true false ["0x01"]).2.2 "personal_sign" (by decide)⟩

/-- Every member of a joined list occurs inside the `", "`-joined string. -/
theorem mem_infix_joinComma {s : String} {l : List String} (h : s ∈ l) :
    s.data <:+: (joinComma l).data := by
  induction l with
  | nil => cases h
  | cons x xs ih =>
    cases xs with
    | nil =>
      cases h with
      | head => exact List.infix_rfl
      | tail _ h2 => cases h2
    | cons y ys =>
      cases h with
      | head =>
        show s.data <:+: (s ++ ", " ++ joinComma (y :: ys)).data
        rw [String.data_append, String.data_append]
        exact List.IsPrefix.isInfix
          ((List.prefix_append _ _).trans (List.prefix_append _ _))
      | tail _ h2 =>
        have hb := ih h2
        show s.data <:+: (x ++ ", " ++ joinComma (y :: ys)).data
        rw [String.data_append]
        exact hb.trans ( List.IsSuffix.isInfix (List.suffix_append _ _))

/-- C2: a `wallet_switchEthereumChain` request targeting a chain id outside
`supportedChainIds` fails with the 4902 chain-not-recognized error, whose
message enumerates every currently supported chain id, and leaves the
session state — `ProviderState` (in particular `chainId`) and the internal
record (in particular `rpcUrl` and `walletClient`) — unchanged, emitting no
event. -/
theorem switch_chain_unsupported (s : ProviderState) (internal : InternalState)
    (newChainId : Nat) (h : newChainId ∉ s.supportedChainIds) :
    handleSwitchChain s internal newChainId =
      (s, internal, [],
       .error ⟨some 4902, unsupportedChainMessage newChainId s.supportedChainIds⟩)
    ∧ ∀ c ∈ s.supportedChainIds,
        (toString c).data <:+:
          (unsupportedChainMessage newChainId s.supportedChainIds).data := by
  constructor
  · simp [handleSwitchChain, h]
  · intro c hc
    have hb : (toString c).data <:+:
        (joinComma (s.supportedChainIds.map toString)).data :=
      mem_infix_joinComma (List.mem_map_of_mem toString hc)
    have step : ∀ (p q : String), (toString c).data <:+: q.data →
        (toString c).data <:+: (p ++ q).data := by
      intro p q hq
      rw [String.data_append]
      exact hq.trans ( List.IsSuffix.isInfix (List.suffix_append _ _))
    simp only [unsupportedChainMessage]
    exact step _ _ hb

/-- C2 witness: the theorem applied to a concrete provider supporting
chains 1 and 42161, asked to switch to 137. -/
theorem switch_chain_unsupported_witness :
    handleSwitchChain ⟨["0xabc"], 1, true, [1, 42161]⟩
        ⟨"acct", ⟨"acct", 1, "http://a"⟩, [1, 42161], 1, "http://a",
          [(1, "http://a"), (42161, "http://b")]⟩ 137 =
      (⟨["0xabc"], 1, true, [1, 42161]⟩,
       ⟨"acct", ⟨"acct", 1, "http://a"⟩, [1, 42161], 1, "http://a",
          [(1, "http://a"), (42161, "http://b")]⟩, [],
       .error ⟨some 4902, "Chain 137 is not supported. Supported chains: 1, 42161"⟩) :=
  (switch_chain_unsupported ⟨["0xabc"], 1, true, [1, 42161]⟩
    ⟨"acct", ⟨"acct", 1, "http://a"⟩, [1, 42161], 1, "http://a",
      [(1, "http://a"), (42161, "http://b")]⟩ 137 (by decide)).1

/-- Once connected, further `eth_requestAccounts` calls change nothing and
emit nothing; each call still returns `accounts`. -/
theorem iterateRequestAccounts_connected (s : ProviderState)
    (h : s.isConnected = true) :
    ∀ n, iterateRequestAccounts s n = (s, [], List.replicate n s.accounts) := by
  intro n
  induction n with
  | zero => simp [iterateRequestAccounts]
  | succ k ih =>
    simp [iterateRequestAccounts, handleRequestAccounts, h, ih,
      List.replicate_succ]

/-- C5: starting from a not-yet-connected provider, any positive number of
`eth_requestAccounts` calls emits the `connect` event exactly once — on the
first call, carrying the current chain id in hex — leaves the provider
connected, and every call returns the current accounts list. -/
theorem requestAccounts_connect_once (s : ProviderState) (n : Nat)
    (h1 : 0 < n) (h2 : s.isConnected = false) :
    (iterateRequestAccounts s n).2.1 = [Event.connect (hexChainId s.chainId)]
    ∧ (iterateRequestAccounts s n).1.isConnected = true
    ∧ (iterateRequestAccounts s n).2.2 = List.replicate n s.accounts := by
  obtain ⟨m, rfl⟩ : ∃ m, n = m + 1 := ⟨n - 1, (Nat.succ_pred_eq_of_pos h1).symm⟩
  have hfirst : handleRequestAccounts s =
      ({ s with isConnected := true },
       [.connect (hexChainId s.chainId)], s.accounts) := by
    simp [handleRequestAccounts, h2]
  have hrest := iterateRequestAccounts_connected { s with isConnected := true }
    rfl m
  simp [iterateRequestAccounts, hfirst, hrest, List.replicate_succ]

/-- C5 witness: the theorem applied to a fresh provider on chain 1 making
two `eth_requestAccounts` calls. -/
theorem requestAccounts_connect_once_witness :
    (iterateRequestAccounts ⟨["0xabc"], 1, false, [1]⟩ 2).2.1 =
      [Event.connect (hexChainId 1)]
    ∧ (iterateRequestAccounts ⟨["0xabc"], 1, false, [1]⟩ 2).1.isConnected = true
    ∧ (iterateRequestAccounts ⟨["0xabc"], 1, false, [1]⟩ 2).2.2 =
        List.replicate 2 ["0xabc"] :=
  requestAccounts_connect_once ⟨["0xabc"], 1, false, [1]⟩ 2 (by decide) rfl

/-- C6 (code bug, failing input): `emit` iterates the listener set with
`Set.prototype.forEach`, which does not isolate listener invocations — at
the concrete failing input of two registered listeners whose first throws,
the first listener's exception aborts the fan-out, the exception escapes
`emit`, and the second listener is never invoked, contradicting the
required isolation property. -/
theorem emit_throwing_listener_stops_fanout :
    emitRun [⟨0, true⟩, ⟨1, false⟩] = ([0], true)
    ∧ 1 ∉ (emitRun [⟨0, true⟩, ⟨1, false⟩]).1 := by
  exact ⟨rfl, by decide⟩

/-- `emit` with no throwing listeners invokes every registered listener,
in registration order, and no exception escapes. -/
theorem emitRun_no_throws (L : List ListenerModel)
    (h : ∀ l ∈ L, l.throws = false) :
    emitRun L = (L.map (fun l => l.id), false) := by
  induction L with
  | nil => rfl
  | cons x xs ih =>
    have hx := h x (by simp)
    have ih2 := ih (fun l hl => h l (by simp [hl]))
    simp [emitRun, hx, ih2]

/-- C7: event registration has set semantics — `on` twice with the same
listener equals `on` once; a listener registered into a set holding it at
most once is held exactly once afterwards (so a subsequent emit invokes it
exactly once); `removeListener` of an unregistered listener is a no-op;
and `emit` invokes each registered (non-throwing) listener once, in
registration order. -/
theorem listener_registration_set_semantics (L : List ListenerModel)
    (x : ListenerModel) :
    addListener (addListener L x) x = addListener L x
    ∧ (List.count x L ≤ 1 → List.count x (addListener L x) = 1)
    ∧ (x ∉ L → removeListener L x = L)
    ∧ ((∀ l ∈ L, l.throws = false) →
        emitRun L = (L.map (fun l => l.id), false)) := by
  refine ⟨?_, ?_, ?_, fun h => emitRun_no_throws L h⟩
  · by_cases hm : x ∈ L
    · simp [addListener, hm]
    · simp [addListener, hm]
  · intro hc
    by_cases hm : x ∈ L
    · have ha : addListener L x = L := by simp [addListener, hm]
      rw [ha]
      have h0 : List.count x L ≠ 0 := by
        simpa [List.count_eq_zero] using hm
      omega
    · have ha : addListener L x = L ++ [x] := by simp [addListener, hm]
      rw [ha, List.count_append]
      have h0 : List.count x L = 0 := List.count_eq_zero.mpr hm
      simp [h0]
  · intro hm
    exact List.erase_of_not_mem hm

/-- C7 witness: the theorem applied at concrete listener sets — double
registration into the empty set, removal of an absent listener, and a
two-listener emit. -/
theorem listener_registration_set_semantics_witness :
    addListener (addListener [] ⟨1, false⟩) ⟨1, false⟩ = addListener [] ⟨1, false⟩
    ∧ List.count ⟨1, false⟩ (addListener ([] : List ListenerModel) ⟨1, false⟩) = 1
    ∧ removeListener ([⟨2, false⟩] : List ListenerModel) ⟨1, false⟩ = [⟨2, false⟩]
    ∧ emitRun [⟨1, false⟩, ⟨2, false⟩] = ([1, 2], false) :=
  ⟨(listener_registration_set_semantics ([] : List ListenerModel) ⟨1, false⟩).1,
   (listener_registration_set_semantics ([] : List ListenerModel) ⟨1, false⟩).2.1
     (by decide),
   (listener_registration_set_semantics ([⟨2, false⟩] : List ListenerModel)
     ⟨1, false⟩).2.2.1 (by decide),
   (listener_registration_set_semantics
     ([⟨1, false⟩, ⟨2, false⟩] : List ListenerModel) ⟨1, false⟩).2.2.2 (by decide)⟩

/-- C8: account-switch input resolution — an index is accepted exactly
when it is an integer between 0 and 9 (resolving to that entry of the
ten-entry table; 0 and 9 shown concretely) and rejected for -1, 10 and the
non-integer 3/2 with the `Invalid Anvil account index` message; a
66-character string is taken as a private key; a 42-character string is an
address looked up case-insensitively in the table (succeeding exactly on a
`find?` hit, shown concretely on a lowercased address); and any other
string shape fails with the descriptive invalid-input message. -/
theorem resolveAccount_input_classification :
    (∀ q : ℚ,
      (0 ≤ q → q ≤ 9 → q.den = 1 →
        resolveAccount (.num q) = .ok (.fromPrivateKey
          (((ANVIL_ACCOUNTS.get? q.num.toNat).getD ⟨"", ""⟩).privateKey)))
      ∧ (q < 0 ∨ 9 < q ∨ q.den ≠ 1 →
          resolveAccount (.num q) = .error (.invalidIndex q)))
    ∧ ANVIL_ACCOUNTS.length = 10
    ∧ resolveAccount (.num 0) = .ok (.fromPrivateKey
        "0xac0974bec39a17e36ba4a6b4d238ff944bacb478cbed5efcae784d7bf4f2ff80")
    ∧ resolveAccount (.num 9) = .ok (.fromPrivateKey
        "0x2a871d0798f97d79848a013d4936a73bf4cc922c825d33c1cf7073dff6d409c6")
    ∧ resolveAccount (.num (-1)) = .error (.invalidIndex (-1))
    ∧ resolveAccount (.num 10) = .error (.invalidIndex 10)
    ∧ resolveAccount (.num (mkRat 3 2)) = .error (.invalidIndex (mkRat 3 2))
    ∧ (∃ rest : String, renderResolveError (.invalidIndex (-1)) =
        "Invalid Anvil account index" ++ rest)
    ∧ (∀ s : String, s.length = 66 →
        resolveAccount (.str s) = .ok (.fromPrivateKey s))
    ∧ (∀ (s : String) (a : AnvilAccount), s.length = 42 →
        ANVIL_ACCOUNTS.find?
            (fun acct => jsToLowerCase acct.address == jsToLowerCase s) =
          some a →
        resolveAccount (.str s) = .ok (.fromPrivateKey a.privateKey))
    ∧ (∀ s : String, s.length = 42 →
        ANVIL_ACCOUNTS.find?
            (fun acct => jsToLowerCase acct.address == jsToLowerCase s) =
          none →
        resolveAccount (.str s) = .error (.unknownAddress s))
    ∧ resolveAccount (.str "0xf39fd6e51aad88f6f4ce6ab8827279cfffb92266") =
        .ok (.fromPrivateKey
          "0xac0974bec39a17e36ba4a6b4d238ff944bacb478cbed5efcae784d7bf4f2ff80")
    ∧ (∀ s : String, s.length ≠ 66 → s.length ≠ 42 →
        resolveAccount (.str s) = .error .invalidInput)
    ∧ renderResolveError .invalidInput =
        "Invalid input: expected index (0-9), address (42 chars), private key (66 chars), or Account object." := by
  refine ⟨?_, by decide, by rfl, by rfl, by rfl, by rfl, by rfl,
    ⟨": -1. Must be 0-9.", by rfl⟩, ?_, ?_, ?_, by rfl, ?_, rfl⟩
  · intro q
    constructor
    · intro h0 h9 hd
      have hcond : ¬(q < 0 ∨ 9 < q ∨ q.den ≠ 1) := by
        push_neg
        exact ⟨h0, h9, hd⟩
      simp only [resolveAccount]
      rw [if_neg hcond]
    · intro h
      simp only [resolveAccount]
      rw [if_pos h]
  · intro s h
    simp [resolveAccount, h]
  · intro s a h hfind
    simp [resolveAccount, h, hfind]
  · intro s h hfind
    simp [resolveAccount, h, hfind]
  · intro s h66 h42
    have b66 : (s.length == 66) = false := by simpa using h66
    have b42 : (s.length == 42) = false := by simpa using h42
    simp [resolveAccount, b66, b42]

/-- C8 witness: the theorem applied at the concrete integral index 5, at a
concrete 66-character private key, and at the 5-character string
`"0x123"`. -/
theorem resolveAccount_input_classification_witness :
    resolveAccount (.num 5) = .ok (.fromPrivateKey
      (((ANVIL_ACCOUNTS.get? ((5 : ℚ)).num.toNat).getD ⟨"", ""⟩).privateKey))
    ∧ resolveAccount
        (.str "0x0123456789abcdef0123456789abcdef0123456789abcdef0123456789abcdef") =
      .ok (.fromPrivateKey
        "0x0123456789abcdef0123456789abcdef0123456789abcdef0123456789abcdef")
    ∧ resolveAccount (.str "0x123") = .error .invalidInput := by
  have h := resolveAccount_input_classification
  exact ⟨(h.1 5).1 (by norm_num) (by norm_num) (by decide),
    h.2.2.2.2.2.2.2.2.1
      "0x0123456789abcdef0123456789abcdef0123456789abcdef0123456789abcdef"
      (by decide),
    h.2.2.2.2.2.2.2.2.2.2.2.2.1 "0x123" (by decide) (by decide)⟩

end Walletless
